import Mathlib

set_option maxHeartbeats 1000000
set_option maxRecDepth 20000

/-!
Shallow embedding of `mm2src/lp_swap.rs`: the atomic-swap engine of the
repository.  The embedding covers the swap context (`AtomicSwap`), the
negotiation codec (`SwapNegotiationData` with its wire serialization),
the messenger validator machinery of the `recv_!` macro, and the two
state-machine drivers `maker_swap_loop` and `taker_swap_loop`.

External collaborators (the chain adapter `MmCoinEnum`, the peer
transport, the `bitcrypto::dhash160` hash and the clock) are modelled as
an explicit environment record of oracle functions: each field gives the
result the corresponding external call returns.  The loops themselves
are translated line by line from the source; every error code and error
message string is reproduced verbatim.
-/

/-- Raw transaction bytes: a `TransactionEnum` is represented by the raw
bytes the loops exchange and hand to the chain adapter. -/
abbrev Tx := List Nat

/-- Little-endian base-256 encoding of a natural number into `k` bytes
(the integer width used by the wire format). -/
def natToLE : Nat → Nat → List Nat
  | 0, _ => []
  | k + 1, n => n % 256 :: natToLE k (n / 256)

/-- Little-endian base-256 decoding of a byte list. -/
def natFromLE : List Nat → Nat
  | [] => 0
  | b :: bs => b + 256 * natFromLE bs

/-- Data to be exchanged and validated on swap start
(struct `SwapNegotiationData`, lp_swap.rs lines 218-225). -/
structure SwapNegotiationData where
  started_at : Nat
  payment_locktime : Nat
  secret_hash : List Nat
  pub0 : List Nat
  persistent_pubkey : List Nat
deriving DecidableEq

/-- Modelled from the spec: the `serialization` crate the source calls
via `serialize(&data)` is not under src/; the spec fixes the wire layout
as the fields in declaration order, integers 64-bit little-endian, hash
and key fields as raw bytes
(`started_at:8 | payment_locktime:8 | secret_hash:20 | pub0:33 | persistent_pubkey:33`). -/
def serializeSwapNegotiationData (d : SwapNegotiationData) : List Nat :=
  natToLE 8 d.started_at ++ natToLE 8 d.payment_locktime ++
    d.secret_hash ++ d.pub0 ++ d.persistent_pubkey

/-- Modelled from the spec: inverse of the wire layout above; short or
over-long inputs fail with a decode error, as the spec requires. -/
def deserializeSwapNegotiationData (bs : List Nat) :
    Except String SwapNegotiationData :=
  if bs.length = 102 then
    Except.ok
      { started_at := natFromLE (bs.take 8)
        payment_locktime := natFromLE ((bs.drop 8).take 8)
        secret_hash := (bs.drop 16).take 20
        pub0 := (bs.drop 36).take 33
        persistent_pubkey := bs.drop 69 }
  else Except.error "DecodeError: unexpected length"

/-- Modelled from the spec: the boolean codec of the `serialization`
crate used for the `negotiated` message; a single byte, `0x01` on
success, nonzero meaning `true`. -/
def deserializeBool (bs : List Nat) : Except String Bool :=
  match bs with
  | [b] => Except.ok (b != 0)
  | _ => Except.error "DecodeError: bool"

/-- Value of a u64 reinterpreted by an `as i64` cast (two's complement). -/
def i64OfU64 (n : Nat) : Int :=
  if n % 18446744073709551616 < 9223372036854775808 then
    ((n % 18446744073709551616 : Nat) : Int)
  else
    ((n % 18446744073709551616 : Nat) : Int) - 18446744073709551616

/-- Wrap-around of an integer into the i64 range (release-mode overflow
semantics of Rust i64 arithmetic). -/
def i64Wrap (z : Int) : Int :=
  (z + 9223372036854775808) % 18446744073709551616 - 9223372036854775808

/-- The clock-skew quantity of lp_swap.rs line 450:
`(started_at as i64 - maker_data.started_at as i64).abs()`. -/
def startedAtTimeDif (a b : Nat) : Int :=
  i64Wrap (Int.natAbs (i64Wrap (i64OfU64 a - i64OfU64 b)))

/-- The mutable per-swap fields of `struct AtomicSwap` that the loops
read and write (the coin handles, identities and session live in the
environment below). -/
structure SwapCtx where
  taker_payment : Option Tx
  taker_payment_lock : Nat
  maker_payment : Option Tx
  maker_payment_lock : Nat
  secret : List Nat
  secret_hash : List Nat
  other_pub0 : List Nat
  other_persistent : List Nat
deriving DecidableEq

/-- The field values `AtomicSwap::new` installs. -/
def initialSwapCtx : SwapCtx :=
  { taker_payment := none
    taker_payment_lock := 0
    maker_payment := none
    maker_payment_lock := 0
    secret := List.replicate 32 0
    secret_hash := List.replicate 20 0
    other_pub0 := List.replicate 33 0
    other_persistent := List.replicate 33 0 }

/-- `enum AtomicSwapState`: all available states of both sides. -/
inductive AtomicSwapState where
  | Negotiation
  | SendTakerFee
  | WaitTakerFee
  | SendMakerPayment
  | WaitMakerPayment
  | SendTakerPayment
  | WaitTakerPayment
  | SpendTakerPayment
  | WaitTakerPaymentSpent
  | SpendMakerPayment
  | RefundTakerPayment
  | RefundMakerPayment
deriving DecidableEq

/-- Observable external calls a state transition performs, with the
arguments the claims talk about. -/
inductive ExtCall where
  | recvMsg (subject : String)
  | sendTakerFee (addr : List Nat) (amount : Nat)
  | validateFee (addr : List Nat) (amount : Nat)
  | sendMakerPayment (lock : Nat) (amount : Nat)
  | validateTakerPayment (lock : Nat) (amount : Nat)
  | validateMakerPayment (lock : Nat) (amount : Nat)
  | sendTakerPayment (lock : Nat) (amount : Nat)
  | waitForConfirmations (deadline : Nat)
  | sendMakerSpendsTakerPayment (tx : Tx) (secret : List Nat)
  | sendTakerSpendsMakerPayment (tx : Tx) (secret : List Nat)
  | sendTakerRefundsPayment (tx : Tx)
  | waitForTxSpend (tx : Tx) (deadline : Nat)
  | extractSecret (tx : Tx)
deriving DecidableEq

/-- Outcome of one state transition of a loop body: jump to the next
state, `return Ok(())`, `return Err((code, msg))`, or a Rust panic
(`unimplemented!()` arm or `.unwrap()` on `None`). -/
inductive StepResult where
  | next (s : AtomicSwapState) (ctx : SwapCtx)
  | done (ctx : SwapCtx)
  | fail (code : Int) (msg : String) (ctx : SwapCtx)
  | panicked
deriving DecidableEq

/-- The protocol fee destination key, `hex::decode` of
`"03bc2c7ba671bae4a6fc835244c9762b41647b9827d4780a89a949b984a8ddcc06"`. -/
def fee_addr_pub_key : List Nat :=
  [0x03, 0xbc, 0x2c, 0x7b, 0xa6, 0x71, 0xba, 0xe4, 0xa6, 0xfc, 0x83,
   0x52, 0x44, 0xc9, 0x76, 0x2b, 0x41, 0x64, 0x7b, 0x98, 0x27, 0xd4,
   0x78, 0x0a, 0x89, 0xa9, 0x49, 0xb9, 0x84, 0xa8, 0xdd, 0xcc, 0x06]

/-- Error message of the `recv_!` macro on a failed receive:
`fomat! ("Error getting '" (recv_subject) "': " (err))` with
`recv_subject = subj@session`. -/
def recvErrMsg (subj session err : String) : String :=
  "Error getting \x27" ++ subj ++ "@" ++ session ++ "\x27: " ++ err

/-- Environment of `maker_swap_loop`: results of every external call the
Maker makes, plus the configuration the loop reads from `basilisk_swap`.
`started_at` is the `now_ms() / 1000` read at loop entry and `now2` the
fresh clock read at the `wait_for_confirmations` call. -/
structure MakerEnv where
  session : String
  started_at : Nat
  now2 : Nat
  putduration : Nat
  alicesatoshis : Nat
  bobsatoshis : Nat
  aliceconfirms : Nat
  secret : List Nat
  persistent_pubkey : List Nat
  my_pub0 : List Nat
  my_priv0_secret : List Nat
  hash160 : List Nat → List Nat
  recv : String → Except String (List Nat)
  tx_from_raw_bytes : List Nat → Except String Tx
  validate_fee : Tx → List Nat → Nat → Except String Unit
  send_maker_payment :
    Nat → List Nat → List Nat → List Nat → List Nat → Nat → Except String Tx
  validate_taker_payment :
    Tx → Nat → List Nat → List Nat → List Nat → List Nat → Nat →
      Except String Unit
  wait_for_confirmations : Tx → Nat → Nat → Except String Unit
  send_maker_spends_taker_payment :
    Tx → List Nat → List Nat → Except String Tx

/-- Environment of `taker_swap_loop`, analogous to `MakerEnv`.  `now2`
is the clock read at the `wait_for_confirmations` call and `now3` the
one at the `wait_for_tx_spend` call.  `hash160` is the ambient
`dhash160` (external `bitcrypto`), carried to state the secret-hash
invariant; the Taker code itself never calls it. -/
structure TakerEnv where
  session : String
  started_at : Nat
  now2 : Nat
  now3 : Nat
  putduration : Nat
  alicesatoshis : Nat
  bobsatoshis : Nat
  bobconfirms : Nat
  persistent_pubkey : List Nat
  my_pub0 : List Nat
  my_priv0_secret : List Nat
  hash160 : List Nat → List Nat
  recv : String → Except String (List Nat)
  tx_from_raw_bytes : List Nat → Except String Tx
  send_taker_fee : List Nat → Nat → Except String Tx
  validate_maker_payment :
    Tx → Nat → List Nat → List Nat → List Nat → List Nat → Nat →
      Except String Unit
  wait_for_confirmations : Tx → Nat → Nat → Except String Unit
  send_taker_payment :
    Nat → List Nat → List Nat → List Nat → List Nat → Nat → Except String Tx
  wait_for_tx_spend : Tx → Nat → Except String Tx
  extract_secret : Tx → Except String (List Nat)
  send_taker_spends_maker_payment :
    Tx → List Nat → List Nat → Except String Tx
  send_taker_refunds_payment : Tx → List Nat → Except String Tx

/-- State of the Maker context after the statements `maker_swap_loop`
runs before entering its loop (lp_swap.rs lines 268-281): the payment
lock is `started_at + putduration * 2`, the secret is drawn from the rng
and its `dhash160` stored as the secret hash. -/
def makerSetup (env : MakerEnv) (ctx : SwapCtx) : SwapCtx :=
  { ctx with
    maker_payment_lock := env.started_at + env.putduration * 2
    secret_hash := env.hash160 env.secret
    secret := env.secret }

/-- The negotiation record the Maker builds before its loop. -/
def makerNegotiationData (env : MakerEnv) : SwapNegotiationData :=
  { started_at := env.started_at
    payment_locktime := env.started_at + env.putduration * 2
    secret_hash := env.hash160 env.secret
    pub0 := env.my_pub0
    persistent_pubkey := env.persistent_pubkey }

/-- State of the Taker context after the statements `taker_swap_loop`
runs before entering its loop (line 439):
`taker_payment_lock = started_at + putduration`. -/
def takerSetup (env : TakerEnv) (ctx : SwapCtx) : SwapCtx :=
  { ctx with taker_payment_lock := env.started_at + env.putduration }

/-- One iteration of the `loop` of `maker_swap_loop`: the body of the
`match` on the current state, translated branch by branch from
lp_swap.rs lines 283-402.  Besides the `StepResult` it returns the list
of external calls the branch performed. -/
def makerStep (env : MakerEnv) :
    AtomicSwapState → SwapCtx → StepResult × List ExtCall
  | .Negotiation, swap =>
    match env.recv "negotiation-reply" with
    | .error err =>
      (.fail (-2000) (recvErrMsg "negotiation-reply" env.session err) swap,
       [.recvMsg "negotiation-reply"])
    | .ok data =>
      match deserializeSwapNegotiationData data with
      | .error e =>
        (.fail (-2001) ("!negotiation-reply-deserialize: " ++ e) swap,
         [.recvMsg "negotiation-reply"])
      | .ok taker_data =>
        (.next .WaitTakerFee
          { swap with
            taker_payment_lock := taker_data.payment_locktime
            other_pub0 := taker_data.pub0
            other_persistent := taker_data.persistent_pubkey },
         [.recvMsg "negotiation-reply"])
  | .WaitTakerFee, swap =>
    match env.recv "taker-fee" with
    | .error err =>
      (.fail (-2003) (recvErrMsg "taker-fee" env.session err) swap,
       [.recvMsg "taker-fee"])
    | .ok payload =>
      match env.tx_from_raw_bytes payload with
      | .error err =>
        (.fail (-2003) ("!tx_from_raw_bytes: " ++ err) swap,
         [.recvMsg "taker-fee"])
      | .ok taker_fee =>
        match env.validate_fee taker_fee fee_addr_pub_key
            (env.alicesatoshis / 777) with
        | .error err =>
          (.fail (-2010) ("!validate taker fee: " ++ err) swap,
           [.recvMsg "taker-fee",
            .validateFee fee_addr_pub_key (env.alicesatoshis / 777)])
        | .ok _ =>
          (.next .SendMakerPayment swap,
           [.recvMsg "taker-fee",
            .validateFee fee_addr_pub_key (env.alicesatoshis / 777)])
  | .SendMakerPayment, swap =>
    match env.send_maker_payment (swap.maker_payment_lock % 4294967296)
        swap.other_pub0 env.my_pub0 swap.other_persistent swap.secret_hash
        env.bobsatoshis with
    | .error err =>
      (.fail (-2006) ("!send_maker_payment: " ++ err) swap,
       [.sendMakerPayment (swap.maker_payment_lock % 4294967296)
          env.bobsatoshis])
    | .ok transaction =>
      (.next .WaitTakerPayment { swap with maker_payment := some transaction },
       [.sendMakerPayment (swap.maker_payment_lock % 4294967296)
          env.bobsatoshis])
  | .WaitTakerPayment, swap =>
    match env.recv "taker-payment" with
    | .error err =>
      (.fail (-2006) (recvErrMsg "taker-payment" env.session err) swap,
       [.recvMsg "taker-payment"])
    | .ok payload =>
      match env.tx_from_raw_bytes payload with
      | .error err =>
        (.fail (-2006) ("!taker_coin.tx_from_raw_bytes: " ++ err) swap,
         [.recvMsg "taker-payment"])
      | .ok taker_payment =>
        match env.validate_taker_payment taker_payment
            (swap.taker_payment_lock % 4294967296) swap.other_pub0
            env.my_pub0 swap.other_persistent swap.secret_hash
            env.alicesatoshis with
        | .error e =>
          (.fail (-2011) ("!validate taker payment: " ++ e) swap,
           [.recvMsg "taker-payment",
            .validateTakerPayment (swap.taker_payment_lock % 4294967296)
              env.alicesatoshis])
        | .ok _ =>
          let swap2 : SwapCtx :=
            { swap with taker_payment := some taker_payment }
          match env.wait_for_confirmations taker_payment env.aliceconfirms
              (env.now2 + 1000) with
          | .error err =>
            (.fail (-2006) ("!taker_coin.wait_for_confirmations: " ++ err)
               swap2,
             [.recvMsg "taker-payment",
              .validateTakerPayment (swap.taker_payment_lock % 4294967296)
                env.alicesatoshis,
              .waitForConfirmations (env.now2 + 1000)])
          | .ok _ =>
            (.next .SpendTakerPayment swap2,
             [.recvMsg "taker-payment",
              .validateTakerPayment (swap.taker_payment_lock % 4294967296)
                env.alicesatoshis,
              .waitForConfirmations (env.now2 + 1000)])
  | .SpendTakerPayment, swap =>
    match swap.taker_payment with
    | none => (.panicked, [])
    | some tp =>
      match env.send_maker_spends_taker_payment tp env.my_priv0_secret
          swap.secret with
      | .error err =>
        (.fail (-2007) ("!send_maker_spends_taker_payment: " ++ err) swap,
         [.sendMakerSpendsTakerPayment tp swap.secret])
      | .ok _ =>
        (.done swap, [.sendMakerSpendsTakerPayment tp swap.secret])
  | .RefundMakerPayment, swap => (.done swap, [])
  | _, _ => (.panicked, [])

/-- One iteration of the `loop` of `taker_swap_loop`
(lp_swap.rs lines 441-609). -/
def takerStep (env : TakerEnv) :
    AtomicSwapState → SwapCtx → StepResult × List ExtCall
  | .Negotiation, swap =>
    match env.recv "negotiation" with
    | .error err =>
      (.fail (-1000) (recvErrMsg "negotiation" env.session err) swap,
       [.recvMsg "negotiation"])
    | .ok data =>
      match deserializeSwapNegotiationData data with
      | .error e =>
        (.fail (-1001) ("!negotiation-deserialize: " ++ e) swap,
         [.recvMsg "negotiation"])
      | .ok maker_data =>
        let time_dif := startedAtTimeDif env.started_at maker_data.started_at
        if time_dif > 60 then
          (.fail (-1002)
             ("Started_at time_dif over 60: " ++ toString time_dif) swap,
           [.recvMsg "negotiation"])
        else
          let swap2 : SwapCtx :=
            { swap with
              other_pub0 := maker_data.pub0
              other_persistent := maker_data.persistent_pubkey
              maker_payment_lock := maker_data.payment_locktime
              secret_hash := maker_data.secret_hash }
          match env.recv "negotiated" with
          | .error err =>
            (.fail (-1000) (recvErrMsg "negotiated" env.session err) swap2,
             [.recvMsg "negotiation", .recvMsg "negotiated"])
          | .ok data2 =>
            match deserializeBool data2 with
            | .error e =>
              (.fail (-1001) ("!negotiation-deserialize: " ++ e) swap2,
               [.recvMsg "negotiation", .recvMsg "negotiated"])
            | .ok negotiated =>
              if !negotiated then
                (.fail (-1001) "!negotiated" swap2,
                 [.recvMsg "negotiation", .recvMsg "negotiated"])
              else
                (.next .SendTakerFee swap2,
                 [.recvMsg "negotiation", .recvMsg "negotiated"])
  | .SendTakerFee, swap =>
    match env.send_taker_fee fee_addr_pub_key (env.alicesatoshis / 777) with
    | .error err =>
      (.fail (-1004) ("!send_taker_fee: " ++ err) swap,
       [.sendTakerFee fee_addr_pub_key (env.alicesatoshis / 777)])
    | .ok _ =>
      (.next .WaitMakerPayment swap,
       [.sendTakerFee fee_addr_pub_key (env.alicesatoshis / 777)])
  | .WaitMakerPayment, swap =>
    match env.recv "maker-payment" with
    | .error err =>
      (.fail (-1005) (recvErrMsg "maker-payment" env.session err) swap,
       [.recvMsg "maker-payment"])
    | .ok payload =>
      match env.tx_from_raw_bytes payload with
      | .error err =>
        (.fail (-1005) ("Error parsing the \x27maker-payment\x27: " ++ err)
           swap,
         [.recvMsg "maker-payment"])
      | .ok maker_payment =>
        match env.validate_maker_payment maker_payment
            (swap.maker_payment_lock % 4294967296) env.my_pub0
            swap.other_pub0 swap.other_persistent swap.secret_hash
            env.bobsatoshis with
        | .error e =>
          (.fail (-1011) ("!validate maker payment: " ++ e) swap,
           [.recvMsg "maker-payment",
            .validateMakerPayment (swap.maker_payment_lock % 4294967296)
              env.bobsatoshis])
        | .ok _ =>
          let swap2 : SwapCtx :=
            { swap with maker_payment := some maker_payment }
          match env.wait_for_confirmations maker_payment env.bobconfirms
              (env.now2 + 1000) with
          | .error err =>
            (.fail (-1005) ("!maker_coin.wait_for_confirmations: " ++ err)
               swap2,
             [.recvMsg "maker-payment",
              .validateMakerPayment (swap.maker_payment_lock % 4294967296)
                env.bobsatoshis,
              .waitForConfirmations (env.now2 + 1000)])
          | .ok _ =>
            (.next .SendTakerPayment swap2,
             [.recvMsg "maker-payment",
              .validateMakerPayment (swap.maker_payment_lock % 4294967296)
                env.bobsatoshis,
              .waitForConfirmations (env.now2 + 1000)])
  | .SendTakerPayment, swap =>
    match env.send_taker_payment (swap.taker_payment_lock % 4294967296)
        env.my_pub0 swap.other_pub0 swap.other_persistent swap.secret_hash
        env.alicesatoshis with
    | .error err =>
      (.fail (-1006) ("!send_taker_payment: " ++ err) swap,
       [.sendTakerPayment (swap.taker_payment_lock % 4294967296)
          env.alicesatoshis])
    | .ok transaction =>
      (.next .WaitTakerPaymentSpent
         { swap with taker_payment := some transaction },
       [.sendTakerPayment (swap.taker_payment_lock % 4294967296)
          env.alicesatoshis])
  | .WaitTakerPaymentSpent, swap =>
    match swap.taker_payment with
    | none => (.panicked, [])
    | some tp =>
      match env.wait_for_tx_spend tp (env.now3 + 1000) with
      | .ok transaction =>
        match env.extract_secret transaction with
        | .ok bytes =>
          (.next .SpendMakerPayment { swap with secret := bytes },
           [.waitForTxSpend tp (env.now3 + 1000),
            .extractSecret transaction])
        | .error _ =>
          (.next .RefundTakerPayment swap,
           [.waitForTxSpend tp (env.now3 + 1000),
            .extractSecret transaction])
      | .error _ =>
        (.next .RefundTakerPayment swap,
         [.waitForTxSpend tp (env.now3 + 1000)])
  | .SpendMakerPayment, swap =>
    match swap.maker_payment with
    | none => (.panicked, [])
    | some mp =>
      match env.send_taker_spends_maker_payment mp env.my_priv0_secret
          swap.secret with
      | .error err =>
        (.fail (-1) ("Error: " ++ err) swap,
         [.sendTakerSpendsMakerPayment mp swap.secret])
      | .ok _ =>
        (.done swap, [.sendTakerSpendsMakerPayment mp swap.secret])
  | .RefundTakerPayment, swap =>
    match swap.taker_payment with
    | none => (.panicked, [])
    | some tp =>
      match env.send_taker_refunds_payment tp env.my_priv0_secret with
      | .error err =>
        (.fail (-1) ("Error: " ++ err) swap, [.sendTakerRefundsPayment tp])
      | .ok _ => (.done swap, [.sendTakerRefundsPayment tp])
  | _, _ => (.panicked, [])

/-- Final outcome of running a swap loop: `Ok(())`, `Err((code, msg))`,
still running (fuel exhausted; never reached with enough fuel), or a
panic.  The final context and accumulated external calls are kept. -/
inductive SwapOutcome where
  | ok (ctx : SwapCtx) (calls : List ExtCall)
  | err (code : Int) (msg : String) (ctx : SwapCtx) (calls : List ExtCall)
  | running (s : AtomicSwapState) (ctx : SwapCtx) (calls : List ExtCall)
  | panicked (calls : List ExtCall)
deriving DecidableEq

/-- The `loop { ... swap.state = Some(next_state); }` driver, fuelled.
Each loop body iteration is one `step`. -/
def runSwap (step : AtomicSwapState → SwapCtx → StepResult × List ExtCall) :
    Nat → AtomicSwapState → SwapCtx → List ExtCall → SwapOutcome
  | 0, s, ctx, acc => .running s ctx acc
  | fuel + 1, s, ctx, acc =>
    match step s ctx with
    | (.next s2 ctx2, cs) => runSwap step fuel s2 ctx2 (acc ++ cs)
    | (.done ctx2, cs) => .ok ctx2 (acc ++ cs)
    | (.fail c m ctx2, cs) => .err c m ctx2 (acc ++ cs)
    | (.panicked, cs) => .panicked (acc ++ cs)

/-- `maker_swap_loop` from its setup statements onward.  Twelve units of
fuel exceed the number of states, so the loop always terminates inside
the budget. -/
def maker_swap_loop (env : MakerEnv) : SwapOutcome :=
  runSwap (makerStep env) 12 .Negotiation (makerSetup env initialSwapCtx) []

/-- `taker_swap_loop` from its setup statement onward. -/
def taker_swap_loop (env : TakerEnv) : SwapOutcome :=
  runSwap (takerStep env) 12 .Negotiation (takerSetup env initialSwapCtx) []

/-- Error code of an outcome, when it is an error. -/
def SwapOutcome.errCode : SwapOutcome → Option Int
  | .err c _ _ _ => some c
  | _ => none

/-- Error message of an outcome, when it is an error. -/
def SwapOutcome.errMsg : SwapOutcome → Option String
  | .err _ m _ _ => some m
  | _ => none

/-- Final swap context of a finished outcome. -/
def SwapOutcome.finalCtx : SwapOutcome → Option SwapCtx
  | .ok ctx _ => some ctx
  | .err _ _ ctx _ => some ctx
  | _ => none

/-- Accumulated external calls of an outcome. -/
def SwapOutcome.calls : SwapOutcome → List ExtCall
  | .ok _ cs => cs
  | .err _ _ _ cs => cs
  | .running _ _ cs => cs
  | .panicked cs => cs

/-- Whether the outcome is `Ok(())`. -/
def SwapOutcome.isOk : SwapOutcome → Bool
  | .ok _ _ => true
  | _ => false

/-- The literal validator closure passed at every receive site of both
loops: `{|_: &[u8]| Ok(())}`. -/
def swapValidator : List Nat → Except String Unit := fun _ => Except.ok ()

/-- The adaptation the `recv_!` macro wraps around a validator: `true`
exactly when the validator returns `Ok`. -/
def validatorAccepts (v : List Nat → Except String Unit)
    (payload : List Nat) : Bool :=
  match v payload with
  | .ok _ => true
  | .error _ => false

/-- The candidate filter of `peers::recv` as the `recv_!` macro uses it:
the first candidate payload the validator accepts is returned; rejected
candidates are discarded with a logged retry; `none` is the timeout. -/
def recvFirstValid (v : List Nat → Except String Unit) :
    List (List Nat) → Option (List Nat)
  | [] => none
  | p :: rest =>
    if validatorAccepts v p then some p else recvFirstValid v rest

/-- The receive sites of `maker_swap_loop` with the validator each
passes (lines 289, 305, 344). -/
def makerRecvSites : List (String × (List Nat → Except String Unit)) :=
  [("negotiation-reply", swapValidator),
   ("taker-fee", swapValidator),
   ("taker-payment", swapValidator)]

/-- The receive sites of `taker_swap_loop` with the validator each
passes (lines 444, 468, 496). -/
def takerRecvSites : List (String × (List Nat → Except String Unit)) :=
  [("negotiation", swapValidator),
   ("negotiated", swapValidator),
   ("maker-payment", swapValidator)]

/-! ## Concrete test fixtures

Concrete environments used to evaluate the loops at specific inputs.
`negRecordA` is a negotiation record whose `payment_locktime` does not
follow the protocol formula; `negRecordB` is a well-formed Maker record
for a swap started at second 1000 with `putduration = 100`. -/

def negRecordA : SwapNegotiationData :=
  { started_at := 1000
    payment_locktime := 5000
    secret_hash := List.replicate 20 1
    pub0 := List.replicate 33 2
    persistent_pubkey := List.replicate 33 3 }

def negRecordB : SwapNegotiationData :=
  { started_at := 1000
    payment_locktime := 1200
    secret_hash := List.replicate 20 1
    pub0 := List.replicate 33 2
    persistent_pubkey := List.replicate 33 3 }

/-- A Maker environment whose Taker counterpart answers the negotiation
with `negRecordA`, sends a fee, but never sends the `taker-payment`
message (that receive times out). -/
def mEnvA : MakerEnv :=
  { session := "s"
    started_at := 1000
    now2 := 2000
    putduration := 100
    alicesatoshis := 77700
    bobsatoshis := 100000
    aliceconfirms := 1
    secret := List.replicate 32 7
    persistent_pubkey := List.replicate 33 4
    my_pub0 := List.replicate 33 5
    my_priv0_secret := List.replicate 32 6
    hash160 := fun _ => List.replicate 20 9
    recv := fun subj =>
      if subj = "negotiation-reply" then
        Except.ok (serializeSwapNegotiationData negRecordA)
      else if subj = "taker-fee" then Except.ok [1, 1]
      else Except.error "timeout"
    tx_from_raw_bytes := fun bs => Except.ok bs
    validate_fee := fun _ _ _ => Except.ok ()
    send_maker_payment := fun _ _ _ _ _ _ => Except.ok [9, 9]
    validate_taker_payment := fun _ _ _ _ _ _ _ => Except.ok ()
    wait_for_confirmations := fun _ _ _ => Except.ok ()
    send_maker_spends_taker_payment := fun _ _ _ => Except.ok [8, 8] }

/-- `mEnvA` with the Maker-payment broadcast failing. -/
def mEnvSendFail : MakerEnv :=
  { mEnvA with send_maker_payment := fun _ _ _ _ _ _ => Except.error "A" }

/-- `mEnvA` with the Taker payment arriving but its confirmation wait
failing. -/
def mEnvConfFail : MakerEnv :=
  { mEnvA with
    recv := fun subj =>
      if subj = "taker-payment" then Except.ok [7, 7] else mEnvA.recv subj
    wait_for_confirmations := fun _ _ _ => Except.error "C" }

/-- `mEnvA` with the Taker payment arriving but failing to parse. -/
def mEnvParseFail : MakerEnv :=
  { mEnvA with
    recv := fun subj =>
      if subj = "taker-payment" then Except.ok [7, 7] else mEnvA.recv subj
    tx_from_raw_bytes := fun bs =>
      if bs = [7, 7] then Except.error "D" else Except.ok bs }

/-- A Maker environment in which every receive times out. -/
def mEnvErr : MakerEnv := { mEnvA with recv := fun _ => Except.error "timeout" }

/-- A Taker environment for a full happy-path run: the Maker record
`negRecordB` arrives, every chain call succeeds, and the observed
spending transaction yields the 32-byte preimage `2,2,...,2` — whose
`hash160` (modelled here as the constant `9,...,9`) does NOT match the
`secret_hash` `1,...,1` the Maker communicated. -/
def tEnvA : TakerEnv :=
  { session := "s"
    started_at := 1000
    now2 := 2000
    now3 := 3000
    putduration := 100
    alicesatoshis := 77700
    bobsatoshis := 100000
    bobconfirms := 1
    persistent_pubkey := List.replicate 33 4
    my_pub0 := List.replicate 33 5
    my_priv0_secret := List.replicate 32 6
    hash160 := fun _ => List.replicate 20 9
    recv := fun subj =>
      if subj = "negotiation" then
        Except.ok (serializeSwapNegotiationData negRecordB)
      else if subj = "negotiated" then Except.ok [1]
      else if subj = "maker-payment" then Except.ok [3, 3]
      else Except.error "timeout"
    tx_from_raw_bytes := fun bs => Except.ok bs
    send_taker_fee := fun _ _ => Except.ok [2, 2]
    validate_maker_payment := fun _ _ _ _ _ _ _ => Except.ok ()
    wait_for_confirmations := fun _ _ _ => Except.ok ()
    send_taker_payment := fun _ _ _ _ _ _ => Except.ok [4, 4]
    wait_for_tx_spend := fun _ _ => Except.ok [5, 5]
    extract_secret := fun _ => Except.ok (List.replicate 32 2)
    send_taker_spends_maker_payment := fun _ _ _ => Except.ok [6, 6]
    send_taker_refunds_payment := fun _ _ => Except.ok [7, 7] }

/-- `tEnvA` with the final Maker-payment spend failing. -/
def tEnvB : TakerEnv :=
  { tEnvA with
    send_taker_spends_maker_payment := fun _ _ _ => Except.error "boom" }

/-- `tEnvA` with the spend wait on the Taker payment failing. -/
def tEnvRefund : TakerEnv :=
  { tEnvA with wait_for_tx_spend := fun _ _ => Except.error "timeout" }

/-- A Taker environment in which every receive times out. -/
def tEnvErr : TakerEnv := { tEnvA with recv := fun _ => Except.error "timeout" }

/-- `tEnvA` receiving a Maker record whose clock reads `sa`. -/
def tEnvSkew (sa : Nat) : TakerEnv :=
  { tEnvA with
    recv := fun subj =>
      if subj = "negotiation" then
        Except.ok (serializeSwapNegotiationData
          { negRecordB with started_at := sa })
      else tEnvA.recv subj }

/-- Context in which the Taker has broadcast its payment `[4, 4]`. -/
def ctxRefundW : SwapCtx := { initialSwapCtx with taker_payment := some [4, 4] }

/-- The Maker record of `negRecordB` as read by a clock at second 1060. -/
def negRecordSkew60 : SwapNegotiationData := { negRecordB with started_at := 1060 }

/-- The Maker record of `negRecordB` as read by a clock at second 1061. -/
def negRecordSkew61 : SwapNegotiationData := { negRecordB with started_at := 1061 }

/-- The Maker context after `mEnvA`'s negotiation succeeds: the Maker's
own lock is `1000 + 100 * 2 = 1200` while the peer-supplied
`payment_locktime` `5000` was copied unvalidated. -/
def mCtxAfterNeg : SwapCtx :=
  { taker_payment := none
    taker_payment_lock := 5000
    maker_payment := none
    maker_payment_lock := 1200
    secret := List.replicate 32 7
    secret_hash := List.replicate 20 9
    other_pub0 := List.replicate 33 2
    other_persistent := List.replicate 33 3 }

/-- A protocol-conform Taker reply: `payment_locktime = 1000 + 100`,
the Taker formula for a swap started at 1000 with lock duration 100. -/
def negRecordC : SwapNegotiationData :=
  { negRecordB with payment_locktime := 1100 }

/-- `mEnvA` with the Taker replying with the protocol-conform record
`negRecordC`. -/
def mEnvB : MakerEnv :=
  { mEnvA with
    recv := fun subj =>
      if subj = "negotiation-reply" then
        Except.ok (serializeSwapNegotiationData negRecordC)
      else mEnvA.recv subj }

/-- The Maker context after `mEnvB`'s negotiation succeeds. -/
def mCtxAfterNegB : SwapCtx :=
  { taker_payment := none
    taker_payment_lock := 1100
    maker_payment := none
    maker_payment_lock := 1200
    secret := List.replicate 32 7
    secret_hash := List.replicate 20 9
    other_pub0 := List.replicate 33 2
    other_persistent := List.replicate 33 3 }

/-- The Taker context after `tEnvA`'s negotiation succeeds. -/
def tCtxAfterNeg : SwapCtx :=
  { taker_payment := none
    taker_payment_lock := 1100
    maker_payment := none
    maker_payment_lock := 1200
    secret := List.replicate 32 0
    secret_hash := List.replicate 20 1
    other_pub0 := List.replicate 33 2
    other_persistent := List.replicate 33 3 }

/-- Error code of a step outcome, when the step fails. -/
def StepResult.failCode : StepResult → Option Int
  | .fail c _ _ => some c
  | _ => none

/-! ## Codec lemmas -/

theorem natToLE_length (k n : Nat) : (natToLE k n).length = k := by
  induction k generalizing n with
  | zero => rfl
  | succ k ih => simp [natToLE, ih]

theorem natFromLE_natToLE (k n : Nat) :
    natFromLE (natToLE k n) = n % 256 ^ k := by
  induction k generalizing n with
  | zero => simp [natToLE, natFromLE, Nat.mod_one]
  | succ k ih =>
    rw [natToLE, natFromLE, ih, pow_succ, mul_comm (256 ^ k) 256,
      Nat.mod_mul]

theorem serializeSwapNegotiationData_length (d : SwapNegotiationData)
    (h1 : d.secret_hash.length = 20) (h2 : d.pub0.length = 33)
    (h3 : d.persistent_pubkey.length = 33) :
    (serializeSwapNegotiationData d).length = 102 := by
  simp [serializeSwapNegotiationData, natToLE_length, h1, h2, h3]

/-- Claim C3: deserializing the serialization of any well-formed
`SwapNegotiationData` record (u64 fields in range, 20-byte hash, 33-byte
keys) succeeds and yields the record back. -/
theorem C3_roundtrip (x : SwapNegotiationData)
    (hsa : x.started_at < 18446744073709551616)
    (hlt : x.payment_locktime < 18446744073709551616)
    (hsh : x.secret_hash.length = 20)
    (hp0 : x.pub0.length = 33)
    (hpp : x.persistent_pubkey.length = 33) :
    deserializeSwapNegotiationData (serializeSwapNegotiationData x) =
      Except.ok x := by
  obtain ⟨sa, lt, sh, p0, pp⟩ := x
  simp only at hsa hlt hsh hp0 hpp
  have hlen : (serializeSwapNegotiationData ⟨sa, lt, sh, p0, pp⟩).length = 102 :=
    serializeSwapNegotiationData_length _ hsh hp0 hpp
  unfold deserializeSwapNegotiationData
  rw [if_pos hlen]
  simp only [serializeSwapNegotiationData, natToLE, Except.ok.injEq,
    SwapNegotiationData.mk.injEq]
  norm_num [List.take_succ_cons, List.drop_succ_cons, natFromLE]
  refine ⟨by omega, by omega, ?_, ?_, ?_⟩
  · rw [List.take_left' hsh]
  · rw [List.drop_left' hsh, List.take_left' hp0]
  · rw [show (53 : Nat) = 20 + 33 from rfl, ← List.drop_drop,
      List.drop_left' hsh, List.drop_left' hp0]

/-! ## Clock-skew arithmetic -/

theorem i64Wrap_eq_self (z : Int) (h1 : -9223372036854775808 ≤ z)
    (h2 : z < 9223372036854775808) : i64Wrap z = z := by
  unfold i64Wrap
  omega

theorem startedAtTimeDif_eq_natAbs (a b : Nat)
    (ha : a < 9223372036854775808) (hb : b < 9223372036854775808) :
    startedAtTimeDif a b = (((a : Int) - (b : Int)).natAbs : Int) := by
  unfold startedAtTimeDif i64OfU64
  rw [Nat.mod_eq_of_lt (show a < 18446744073709551616 by omega),
    Nat.mod_eq_of_lt (show b < 18446744073709551616 by omega),
    if_pos ha, if_pos hb,
    i64Wrap_eq_self ((a : Int) - (b : Int)) (by omega) (by omega),
    i64Wrap_eq_self _ (by omega) (by omega)]

/-! ## Claim theorems -/

/-- Claim C7: in the Taker Negotiation state, a Maker record whose
`started_at` differs from the Taker's clock by exactly 60 seconds passes
the skew check (the state never fails with code -1002), while a
difference of 61 seconds or more is rejected with code -1002 and a
message reporting the difference.  Timestamps are assumed below 2^63,
where the `as i64` casts of the source are value-preserving. -/
theorem C7_skew :
    (∀ (env : TakerEnv) (d : List Nat) (md : SwapNegotiationData),
      env.recv "negotiation" = Except.ok d →
      deserializeSwapNegotiationData d = Except.ok md →
      env.started_at < 9223372036854775808 →
      md.started_at < 9223372036854775808 →
      (((env.started_at : Int) - (md.started_at : Int)).natAbs = 60) →
      ((takerStep env .Negotiation
        (takerSetup env initialSwapCtx)).1).failCode ≠ some (-1002)) ∧
    (∀ (env : TakerEnv) (d : List Nat) (md : SwapNegotiationData),
      env.recv "negotiation" = Except.ok d →
      deserializeSwapNegotiationData d = Except.ok md →
      env.started_at < 9223372036854775808 →
      md.started_at < 9223372036854775808 →
      (61 ≤ ((env.started_at : Int) - (md.started_at : Int)).natAbs) →
      (takerStep env .Negotiation (takerSetup env initialSwapCtx)).1 =
        .fail (-1002)
          ("Started_at time_dif over 60: " ++
            toString (startedAtTimeDif env.started_at md.started_at))
          (takerSetup env initialSwapCtx)) := by
  constructor
  · intro env d md h1 h2 ha hb hd
    have hdif := startedAtTimeDif_eq_natAbs env.started_at md.started_at ha hb
    simp only [takerStep, h1, h2]
    rw [if_neg (by rw [hdif, hd]; norm_num)]
    rcases h3 : env.recv "negotiated" with e | d2
    · simp [StepResult.failCode]
    · simp only
      rcases h4 : deserializeBool d2 with e | b
      · simp [StepResult.failCode]
      · simp only
        rcases b with _ | _ <;> simp [StepResult.failCode]
  · intro env d md h1 h2 ha hb hd
    have hdif := startedAtTimeDif_eq_natAbs env.started_at md.started_at ha hb
    simp only [takerStep, h1, h2]
    rw [if_pos (by rw [hdif]; omega)]

/-- Witness for C7 at skew exactly 60 (accepted) and exactly 61
(rejected with the difference in the message). -/
theorem C7_skew_witness :
    ((takerStep (tEnvSkew 1060) .Negotiation
      (takerSetup (tEnvSkew 1060) initialSwapCtx)).1).failCode ≠
        some (-1002) ∧
    (takerStep (tEnvSkew 1061) .Negotiation
      (takerSetup (tEnvSkew 1061) initialSwapCtx)).1 =
      .fail (-1002) "Started_at time_dif over 60: 61"
        (takerSetup (tEnvSkew 1061) initialSwapCtx) := by
  constructor
  · exact C7_skew.1 (tEnvSkew 1060)
      (serializeSwapNegotiationData negRecordSkew60) negRecordSkew60 rfl
      rfl (by decide) (by decide) (by decide)
  · exact C7_skew.2 (tEnvSkew 1061)
      (serializeSwapNegotiationData negRecordSkew61) negRecordSkew61 rfl
      rfl (by decide) (by decide) (by decide)

/-- Claim C8: both roles compute the Taker fee amount as
`taker_amount / 777` with integer division: for any shared
`taker_amount`, the Taker passes exactly this amount to
`send_taker_fee` and the Maker passes exactly the same amount to
`validate_fee`. -/
theorem C8_fee (a : Nat) (envT : TakerEnv) (envM : MakerEnv)
    (ctxT ctxM : SwapCtx) (p : List Nat) (tf : Tx)
    (hT : envT.alicesatoshis = a) (hM : envM.alicesatoshis = a)
    (h3 : envM.recv "taker-fee" = Except.ok p)
    (h4 : envM.tx_from_raw_bytes p = Except.ok tf) :
    ExtCall.sendTakerFee fee_addr_pub_key (a / 777) ∈
      (takerStep envT .SendTakerFee ctxT).2 ∧
    ExtCall.validateFee fee_addr_pub_key (a / 777) ∈
      (makerStep envM .WaitTakerFee ctxM).2 := by
  subst hT
  constructor
  · simp only [takerStep]
    rcases h : envT.send_taker_fee fee_addr_pub_key
        (envT.alicesatoshis / 777) with e | t <;> simp [hM]
  · simp only [makerStep, h3, h4]
    rcases h : envM.validate_fee tf fee_addr_pub_key
        (envM.alicesatoshis / 777) with e | u <;> simp [hM]

/-- Witness for C8 at `taker_amount = 77700`: both sides use fee 100. -/
theorem C8_fee_witness :
    ExtCall.sendTakerFee fee_addr_pub_key 100 ∈
      (takerStep tEnvA .SendTakerFee initialSwapCtx).2 ∧
    ExtCall.validateFee fee_addr_pub_key 100 ∈
      (makerStep mEnvA .WaitTakerFee initialSwapCtx).2 :=
  C8_fee 77700 tEnvA mEnvA initialSwapCtx initialSwapCtx [1, 1] [1, 1]
    rfl rfl rfl rfl

/-- Claim C9: in the Taker state WaitTakerPaymentSpent, failure of the
spend wait, or failure of secret extraction on the observed spending
transaction, transitions to RefundTakerPayment, which invokes
`send_taker_refunds_payment` on the Taker payment; when the refund
broadcast succeeds the loop returns `Ok`. -/
theorem C9_refund (env : TakerEnv) (ctx : SwapCtx) (tp stx rtx : Tx)
    (e1 e2 : String)
    (htp : ctx.taker_payment = some tp)
    (hfail : env.wait_for_tx_spend tp (env.now3 + 1000) = Except.error e1 ∨
      (env.wait_for_tx_spend tp (env.now3 + 1000) = Except.ok stx ∧
        env.extract_secret stx = Except.error e2))
    (hrefund : env.send_taker_refunds_payment tp env.my_priv0_secret =
      Except.ok rtx) :
    (takerStep env .WaitTakerPaymentSpent ctx).1 =
      .next .RefundTakerPayment ctx ∧
    (runSwap (takerStep env) 2 .WaitTakerPaymentSpent ctx []).isOk = true ∧
    ExtCall.sendTakerRefundsPayment tp ∈
      (runSwap (takerStep env) 2 .WaitTakerPaymentSpent ctx []).calls := by
  rcases hfail with h | ⟨h1, h2⟩
  · simp [takerStep, runSwap, htp, h, hrefund, SwapOutcome.isOk,
      SwapOutcome.calls]
  · simp [takerStep, runSwap, htp, h1, h2, hrefund, SwapOutcome.isOk,
      SwapOutcome.calls]

/-- Witness for C9: the spend wait fails and the refund succeeds. -/
theorem C9_refund_witness :
    (takerStep tEnvRefund .WaitTakerPaymentSpent ctxRefundW).1 =
      .next .RefundTakerPayment ctxRefundW ∧
    (runSwap (takerStep tEnvRefund) 2 .WaitTakerPaymentSpent
      ctxRefundW []).isOk = true ∧
    ExtCall.sendTakerRefundsPayment [4, 4] ∈
      (runSwap (takerStep tEnvRefund) 2 .WaitTakerPaymentSpent
        ctxRefundW []).calls :=
  C9_refund tEnvRefund ctxRefundW [4, 4] [] [7, 7] "timeout" ""
    rfl (Or.inl rfl) rfl

/-- Claim C10: `maker_swap_loop` returns the same code -2006 for four
distinct failure conditions — broadcast failure of the Maker payment,
receive timeout of `taker-payment`, parse failure of `taker-payment`,
and confirmation-wait failure on the Taker payment — so -2006 alone
does not identify the failing step. -/
theorem C10_ambiguous_2006 :
    ((maker_swap_loop mEnvSendFail).errCode = some (-2006) ∧
      (maker_swap_loop mEnvSendFail).errMsg =
        some "!send_maker_payment: A") ∧
    ((maker_swap_loop mEnvA).errCode = some (-2006) ∧
      (maker_swap_loop mEnvA).errMsg =
        some "Error getting \x27taker-payment@s\x27: timeout") ∧
    ((maker_swap_loop mEnvParseFail).errCode = some (-2006) ∧
      (maker_swap_loop mEnvParseFail).errMsg =
        some "!taker_coin.tx_from_raw_bytes: D") ∧
    ((maker_swap_loop mEnvConfFail).errCode = some (-2006) ∧
      (maker_swap_loop mEnvConfFail).errMsg =
        some "!taker_coin.wait_for_confirmations: C") :=
  ⟨⟨rfl, rfl⟩, ⟨rfl, rfl⟩, ⟨rfl, rfl⟩, ⟨rfl, rfl⟩⟩

/-- Claim C1, counterexample: a full Taker run in which the extracted
preimage `2,...,2` is stored as `secret` and the loop goes on to spend
the Maker payment and terminate `Ok`, yet `hash160(secret)` differs
from the stored `secret_hash` — the Taker never performs the hash160
verification the claim describes. -/
theorem C1_counterexample :
    (taker_swap_loop tEnvA).isOk = true ∧
    (taker_swap_loop tEnvA).finalCtx.map SwapCtx.secret =
      some (List.replicate 32 2) ∧
    (taker_swap_loop tEnvA).finalCtx.map SwapCtx.secret_hash =
      some (List.replicate 20 1) ∧
    tEnvA.hash160 (List.replicate 32 2) ≠ List.replicate 20 1 :=
  ⟨rfl, rfl, rfl, by decide⟩

/-- Claim C1, amended: on a successful spend observation and secret
extraction the Taker stores the extracted bytes and transitions to
SpendMakerPayment without any hash160 verification; the invariant
`secret_hash = hash160(secret)` is established on the Maker side, where
the secret hash is computed from the freshly drawn secret. -/
theorem C1_amended :
    (∀ (env : TakerEnv) (ctx : SwapCtx) (tp tx : Tx) (b : List Nat),
      ctx.taker_payment = some tp →
      env.wait_for_tx_spend tp (env.now3 + 1000) = Except.ok tx →
      env.extract_secret tx = Except.ok b →
      (takerStep env .WaitTakerPaymentSpent ctx).1 =
        .next .SpendMakerPayment { ctx with secret := b }) ∧
    (∀ (env : MakerEnv) (ctx : SwapCtx),
      (makerSetup env ctx).secret_hash =
        env.hash160 (makerSetup env ctx).secret) := by
  constructor
  · intro env ctx tp tx b h1 h2 h3
    simp [takerStep, h1, h2, h3]
  · intro env ctx
    rfl

/-- Witness for the amended C1. -/
theorem C1_amended_witness :
    (takerStep tEnvA .WaitTakerPaymentSpent ctxRefundW).1 =
      .next .SpendMakerPayment
        { ctxRefundW with secret := List.replicate 32 2 } ∧
    (makerSetup mEnvA initialSwapCtx).secret_hash =
      mEnvA.hash160 (makerSetup mEnvA initialSwapCtx).secret :=
  ⟨C1_amended.1 tEnvA ctxRefundW [4, 4] [5, 5] (List.replicate 32 2)
      rfl rfl rfl,
   C1_amended.2 mEnvA initialSwapCtx⟩

/-- Claim C5, counterexample: a Taker run whose final Maker-payment
spend fails returns code -1, which is outside the −10xx range. -/
theorem C5_counterexample :
    (taker_swap_loop tEnvB).errCode = some (-1) ∧
    ¬(-1099 ≤ (-1 : Int) ∧ (-1 : Int) ≤ -1000) :=
  ⟨rfl, by decide⟩

/-- Claim C4, counterexample: when the `taker-payment` receive times
out, the Maker does return `(-2006, "Error getting 'taker-payment@…':
…")` — but the Maker payment HAS been broadcast at that point
(`maker_payment` is `Some`, not `None`). -/
theorem C4_counterexample :
    (maker_swap_loop mEnvA).errCode = some (-2006) ∧
    (maker_swap_loop mEnvA).errMsg =
      some "Error getting \x27taker-payment@s\x27: timeout" ∧
    (maker_swap_loop mEnvA).finalCtx.bind SwapCtx.maker_payment =
      some [9, 9] :=
  ⟨rfl, rfl, rfl⟩

/-- Claim C2, counterexample: the Maker's Negotiation state copies the
peer-supplied `payment_locktime` (here 5000) with no validation, so
after a successful negotiation the Maker context can violate
`maker_payment_lock > taker_payment_lock` (1200 is not > 5000). -/
theorem C2_counterexample :
    (makerStep mEnvA .Negotiation (makerSetup mEnvA initialSwapCtx)).1 =
      .next .WaitTakerFee mCtxAfterNeg ∧
    ¬ mCtxAfterNeg.maker_payment_lock > mCtxAfterNeg.taker_payment_lock :=
  ⟨rfl, by decide⟩

/-- Witness for C3 at a concrete record. -/
theorem C3_roundtrip_witness :
    deserializeSwapNegotiationData
      (serializeSwapNegotiationData negRecordA) = Except.ok negRecordA :=
  C3_roundtrip negRecordA (by decide) (by decide) (by decide) (by decide)
    (by decide)

/-- Claim C6, counterexample: the validator installed at the Taker's
`negotiation` receive site (like every other site) is the accept-all
closure `{|_| Ok(())}`; it accepts a zero-length candidate, which recv
then returns as the accepted message instead of retrying. -/
theorem C6_counterexample :
    ("negotiation", swapValidator) ∈ takerRecvSites ∧
    validatorAccepts swapValidator [] = true ∧
    recvFirstValid swapValidator [[]] = some [] := by
  refine ⟨?_, rfl, rfl⟩
  simp [takerRecvSites]

/-- Claim C6, amended: every receive site of both loops passes the
accept-all validator, which accepts every payload — including the
zero-length one — so recv returns the first candidate unconditionally
and a zero-length payload can be the accepted message. -/
theorem C6_amended (sv : String × (List Nat → Except String Unit))
    (h : sv ∈ makerRecvSites ++ takerRecvSites) :
    sv.2 [] = Except.ok () ∧
    ∀ p rest, recvFirstValid sv.2 (p :: rest) = some p := by
  have hv : sv.2 = swapValidator := by
    fin_cases h <;> rfl
  rw [hv]
  exact ⟨rfl, fun p rest => rfl⟩

/-- Witness for the amended C6 at the Taker negotiation site with a
zero-length candidate. -/
theorem C6_amended_witness :
    swapValidator [] = Except.ok () ∧
    recvFirstValid swapValidator [[]] = some [] := by
  have h := C6_amended ("negotiation", swapValidator)
    (by simp [makerRecvSites, takerRecvSites])
  exact ⟨h.1, h.2 [] []⟩

/-- Claim C4, amended: when the Maker reaches WaitTakerPayment and the
`taker-payment` receive fails, `maker_swap_loop` returns
`(-2006, "Error getting 'taker-payment@<session>': <err>")`, and at
that point the Maker payment HAS been broadcast:
`swap.maker_payment` holds the broadcast transaction. -/
theorem C4_amended (env : MakerEnv) (d p : List Nat)
    (nd : SwapNegotiationData) (tf mtx : Tx) (e : String)
    (h1 : env.recv "negotiation-reply" = Except.ok d)
    (h2 : deserializeSwapNegotiationData d = Except.ok nd)
    (h3 : env.recv "taker-fee" = Except.ok p)
    (h4 : env.tx_from_raw_bytes p = Except.ok tf)
    (h5 : env.validate_fee tf fee_addr_pub_key (env.alicesatoshis / 777) =
      Except.ok ())
    (h6 : ∀ l q r t u n, env.send_maker_payment l q r t u n = Except.ok mtx)
    (h7 : env.recv "taker-payment" = Except.error e) :
    (maker_swap_loop env).errCode = some (-2006) ∧
    (maker_swap_loop env).errMsg =
      some (recvErrMsg "taker-payment" env.session e) ∧
    (maker_swap_loop env).finalCtx.bind SwapCtx.maker_payment = some mtx := by
  simp only [maker_swap_loop, runSwap, makerStep, h1, h2, h3, h4, h5, h6, h7]
  exact ⟨rfl, rfl, rfl⟩

/-- Witness for the amended C4: the run of `mEnvA`. -/
theorem C4_amended_witness :
    (maker_swap_loop mEnvA).errCode = some (-2006) ∧
    (maker_swap_loop mEnvA).errMsg =
      some (recvErrMsg "taker-payment" mEnvA.session "timeout") ∧
    (maker_swap_loop mEnvA).finalCtx.bind SwapCtx.maker_payment =
      some [9, 9] :=
  C4_amended mEnvA (serializeSwapNegotiationData negRecordA) [1, 1]
    negRecordA [1, 1] [9, 9] "timeout" rfl rfl rfl rfl rfl
    (fun _ _ _ _ _ _ => rfl) rfl

/-- Claim C2, amended: after a successful negotiation the invariant
`maker_payment_lock > taker_payment_lock` holds in both contexts
PROVIDED the peer's `payment_locktime` follows the protocol formula
with the shared lock duration (Taker lock = peer start + duration,
Maker lock = peer start + 2 x duration), the duration exceeds 60 s and
the clocks are within 60 s; it does not hold for arbitrary
peer-supplied `payment_locktime` values. -/
theorem C2_amended :
    (∀ (env : MakerEnv) (d : List Nat) (nd : SwapNegotiationData)
        (sa_t : Nat),
      env.recv "negotiation-reply" = Except.ok d →
      deserializeSwapNegotiationData d = Except.ok nd →
      nd.payment_locktime = sa_t + env.putduration →
      60 < env.putduration →
      sa_t ≤ env.started_at + 60 →
      ∀ s2 ctx2,
        (makerStep env .Negotiation (makerSetup env initialSwapCtx)).1 =
          .next s2 ctx2 →
        ctx2.maker_payment_lock > ctx2.taker_payment_lock) ∧
    (∀ (env : TakerEnv) (d : List Nat) (md : SwapNegotiationData),
      env.recv "negotiation" = Except.ok d →
      deserializeSwapNegotiationData d = Except.ok md →
      md.payment_locktime = md.started_at + 2 * env.putduration →
      60 < env.putduration →
      env.started_at < 9223372036854775808 →
      md.started_at < 9223372036854775808 →
      ∀ s2 ctx2,
        (takerStep env .Negotiation (takerSetup env initialSwapCtx)).1 =
          .next s2 ctx2 →
        ctx2.maker_payment_lock > ctx2.taker_payment_lock) := by
  constructor
  · intro env d nd sa_t h1 h2 h3 h4 h5 s2 ctx2 hstep
    simp only [makerStep, h1, h2] at hstep
    injection hstep with hs hc
    subst hc
    simp only [makerSetup, initialSwapCtx]
    omega
  · intro env d md h1 h2 h3 h4 ha hb s2 ctx2 hstep
    simp only [takerStep, h1, h2] at hstep
    split at hstep
    · exact absurd hstep (by simp)
    · rename_i h60
      rw [startedAtTimeDif_eq_natAbs env.started_at md.started_at ha hb]
        at h60
      split at hstep
      · exact absurd hstep (by simp)
      · split at hstep
        · exact absurd hstep (by simp)
        · split at hstep
          · exact absurd hstep (by simp)
          · dsimp only at hstep
            injection hstep with hs hc
            subst hc
            simp only [takerSetup, initialSwapCtx]
            omega

/-- Witness for the amended C2: both sides at a conforming negotiation
(start 1000, duration 100; locks 1200 and 1100). -/
theorem C2_amended_witness :
    mCtxAfterNegB.maker_payment_lock > mCtxAfterNegB.taker_payment_lock ∧
    tCtxAfterNeg.maker_payment_lock > tCtxAfterNeg.taker_payment_lock :=
  ⟨C2_amended.1 mEnvB (serializeSwapNegotiationData negRecordC) negRecordC
      1000 rfl rfl rfl (by decide) (by decide) .WaitTakerFee mCtxAfterNegB
      rfl,
   C2_amended.2 tEnvA (serializeSwapNegotiationData negRecordB) negRecordB
      rfl rfl rfl (by decide) (by decide) (by decide) .SendTakerFee
      tCtxAfterNeg rfl⟩

/-- Any error code returned by a fuelled run originates from a `fail`
outcome of some step. -/
theorem runSwap_errCode_of_step
    (step : AtomicSwapState → SwapCtx → StepResult × List ExtCall)
    (P : Int → Prop)
    (hstep : ∀ s ctx c m ctx2 cs,
      step s ctx = (.fail c m ctx2, cs) → P c) :
    ∀ (fuel : Nat) (s : AtomicSwapState) (ctx : SwapCtx)
      (acc : List ExtCall) (c : Int),
      (runSwap step fuel s ctx acc).errCode = some c → P c := by
  intro fuel
  induction fuel with
  | zero =>
    intro s ctx acc c h
    simp [runSwap, SwapOutcome.errCode] at h
  | succ n ih =>
    intro s ctx acc c h
    rw [runSwap] at h
    rcases hs : step s ctx with ⟨r, cs⟩
    rw [hs] at h
    cases r with
    | next s2 ctx2 => exact ih s2 ctx2 _ c h
    | done ctx2 => simp [SwapOutcome.errCode] at h
    | fail c2 m ctx2 =>
      simp only [SwapOutcome.errCode, Option.some.injEq] at h
      subst h
      exact hstep s ctx c2 m ctx2 cs hs
    | panicked => simp [SwapOutcome.errCode] at h

/-- Every `fail` outcome of a Maker state transition carries a code in
the −20xx range. -/
theorem makerStep_fail_code (env : MakerEnv) (s : AtomicSwapState)
    (ctx : SwapCtx) (c : Int) (m : String) (ctx2 : SwapCtx)
    (cs : List ExtCall)
    (h : makerStep env s ctx = (.fail c m ctx2, cs)) :
    -2099 ≤ c ∧ c ≤ -2000 := by
  cases s <;> simp only [makerStep] at h <;> (repeat' split at h) <;>
    injection h with hp hq <;> injection hp <;> omega

/-- Every `fail` outcome of a Taker state transition carries a code in
the −10xx range, or the code −1 of the SpendMakerPayment and
RefundTakerPayment failure branches. -/
theorem takerStep_fail_code (env : TakerEnv) (s : AtomicSwapState)
    (ctx : SwapCtx) (c : Int) (m : String) (ctx2 : SwapCtx)
    (cs : List ExtCall)
    (h : takerStep env s ctx = (.fail c m ctx2, cs)) :
    (-1099 ≤ c ∧ c ≤ -1000) ∨ c = -1 := by
  cases s <;> simp only [takerStep] at h <;> (repeat' split at h) <;>
    injection h with hp hq <;> injection hp <;> omega

/-- Claim C5, amended: every error returned by `maker_swap_loop`
carries a code in the −20xx range; every error returned by
`taker_swap_loop` carries a code in the −10xx range EXCEPT the
SpendMakerPayment and RefundTakerPayment broadcast failures, which
return the code −1. -/
theorem C5_amended :
    (∀ (env : MakerEnv) (c : Int),
      (maker_swap_loop env).errCode = some c →
        -2099 ≤ c ∧ c ≤ -2000) ∧
    (∀ (env : TakerEnv) (c : Int),
      (taker_swap_loop env).errCode = some c →
        (-1099 ≤ c ∧ c ≤ -1000) ∨ c = -1) := by
  constructor
  · intro env c h
    exact runSwap_errCode_of_step (makerStep env) _
      (fun s ctx c2 m ctx2 cs hs =>
        makerStep_fail_code env s ctx c2 m ctx2 cs hs)
      12 .Negotiation (makerSetup env initialSwapCtx) [] c h
  · intro env c h
    exact runSwap_errCode_of_step (takerStep env) _
      (fun s ctx c2 m ctx2 cs hs =>
        takerStep_fail_code env s ctx c2 m ctx2 cs hs)
      12 .Negotiation (takerSetup env initialSwapCtx) [] c h

/-- Witness for the amended C5: a Maker run failing with −2000 and a
Taker run failing with −1000. -/
theorem C5_amended_witness :
    (-2099 ≤ (-2000 : Int) ∧ (-2000 : Int) ≤ -2000) ∧
    ((-1099 ≤ (-1000 : Int) ∧ (-1000 : Int) ≤ -1000) ∨
      (-1000 : Int) = -1) :=
  ⟨C5_amended.1 mEnvErr (-2000) rfl, C5_amended.2 tEnvErr (-1000) rfl⟩
